import Mathlib

/-!
Verification of the Living Heirloom orchestration core: a shallow embedding
of the generation service (`src/lib/ai/webllm-manager.ts`), the model
lifecycle manager, the voice clone orchestrator (`src/hooks/useVoice.ts`),
and the at-rest encryption pipeline (`src/lib/db/database.ts` and
`src/lib/crypto/encryption.ts`), together with proofs about the properties
the specification states for them.

JavaScript strings are modelled as Lean `String` (one `Char` per UTF-16
unit for the inputs considered), byte buffers as `List Nat` with each
element `< 256`, and `Record<string, string>` objects as association lists
in insertion order (the order `Object.entries` yields).  External calls
(the WebLLM completion endpoint, the ElevenLabs API, WebCrypto) are
passed in as explicit outcome parameters, since the embedded code treats
them as opaque collaborators.
-/

set_option autoImplicit false

namespace Heirloom

/-! ## Generic string helpers

JavaScript string primitives used by the source, re-implemented over
`List Char` so that every evaluation step is visible to the kernel.
`strLen`, `strTake` model `.length` / `.substring(0, n)`, `strTrim`
models `.trim()`, `strIncludes` models `.includes(sub)`, `strEndsWith`
models `.endsWith(suf)`, and `strToLower` / `strToUpper` model
`.toLowerCase()` / `.toUpperCase()` (ASCII case folding suffices for the
inputs the source compares). -/

def isWsChar (c : Char) : Bool :=
  c = ' ' || c = '\n' || c = '\t' || c = '\r'

def trimChars (l : List Char) : List Char :=
  ((l.dropWhile isWsChar).reverse.dropWhile isWsChar).reverse

def strTrim (s : String) : String := ⟨trimChars s.data⟩

def strLen (s : String) : Nat := s.data.length

def strTake (s : String) (n : Nat) : String := ⟨s.data.take n⟩

def charsContain (sub : List Char) : List Char → Bool
  | [] => sub.isEmpty
  | c :: t => sub.isPrefixOf (c :: t) || charsContain sub t

/-- JavaScript `s.includes(sub)`. -/
def strIncludes (s sub : String) : Bool := charsContain sub.data s.data

/-- JavaScript `s.endsWith(suf)`. -/
def strEndsWith (s suf : String) : Bool := suf.data.isSuffixOf s.data

def strToLower (s : String) : String := ⟨s.data.map Char.toLower⟩

def strToUpper (s : String) : String := ⟨s.data.map Char.toUpper⟩

/-! ## Emotion classification (`webllm-manager.ts`, `analyzeEmotionalState`)

`analyzeEmotionalState` issues a single-word completion and validates the
answer against a fixed list; on any failure it falls back to a keyword
heuristic.  The completion outcome is a parameter: `Except.error` is a
thrown error (engine missing, call failed), `Except.ok none` is a
response with null content, `Except.ok (some c)` a response with content
`c`. -/

/-- The `validEmotions` list of `validateEmotion`. -/
def validEmotions : List String :=
  ["joyful", "nostalgic", "melancholic", "hopeful", "grateful",
   "reflective", "loving", "peaceful", "excited", "contemplative",
   "vulnerable", "proud", "wistful", "serene", "passionate"]

/-- `validateEmotion`: keep a recognised label, otherwise `"reflective"`. -/
def validateEmotion (emotion : String) : String :=
  if validEmotions.contains emotion then emotion else "reflective"

/-- The `emotionKeywords` table of `analyzeEmotionFallback`, in the order
`Object.entries` iterates it. -/
def emotionKeywords : List (String × List String) :=
  [("joyful", ["happy", "joy", "excited", "wonderful", "amazing", "love"]),
   ("nostalgic", ["remember", "used to", "back then", "childhood", "past"]),
   ("grateful", ["thankful", "blessed", "appreciate", "grateful", "lucky"]),
   ("melancholic", ["sad", "miss", "lost", "gone", "difficult", "hard"]),
   ("hopeful", ["hope", "future", "dream", "wish", "believe", "will"])]

/-- `analyzeEmotionFallback`: first keyword table entry with a keyword
occurring in the lower-cased text, default `"reflective"`. -/
def analyzeEmotionFallback (text : String) : String :=
  match emotionKeywords.find? (fun p => p.2.any (fun kw => strIncludes (strToLower text) kw)) with
  | some p => p.1
  | none => "reflective"

/-- `analyzeEmotionalState`: model path lower-cases and trims the model's
single-word answer (empty or null content yields `"reflective"`) and
validates it; a thrown error falls back to the keyword heuristic. -/
def analyzeEmotionalState (call : Except Unit (Option String)) (text : String) : String :=
  match call with
  | .error _ => analyzeEmotionFallback text
  | .ok content =>
      let emotion :=
        match content with
        | none => "reflective"
        | some c => if strToLower (strTrim c) = "" then "reflective" else strToLower (strTrim c)
      validateEmotion emotion

theorem validateEmotion_mem (emotion : String) : validateEmotion emotion ∈ validEmotions := by
  unfold validateEmotion
  split
  · next h => exact List.mem_of_elem_eq_true h
  · simp [validEmotions]

theorem analyzeEmotionFallback_mem (text : String) :
    analyzeEmotionFallback text ∈ validEmotions := by
  unfold analyzeEmotionFallback
  cases hf : emotionKeywords.find? (fun p => p.2.any (fun kw => strIncludes (strToLower text) kw)) with
  | none => simp [validEmotions]
  | some p =>
      have hp := List.mem_of_find?_eq_some hf
      fin_cases hp <;> simp [validEmotions]

/-- C9: for every completion outcome and every input text (the empty
string included), `analyzeEmotionalState` returns a label from the fixed
allowed set `validEmotions`: an answer outside the set is replaced by
`"reflective"`, and the keyword fallback only produces keys of its table
(a subset of the allowed set) or `"reflective"`. -/
theorem analyzeEmotionalState_mem_validEmotions
    (call : Except Unit (Option String)) (text : String) :
    analyzeEmotionalState call text ∈ validEmotions := by
  unfold analyzeEmotionalState
  cases call with
  | error e => exact analyzeEmotionFallback_mem text
  | ok content => cases content <;> · dsimp only; exact validateEmotion_mem _

/-! ## Interview question generation (`webllm-manager.ts`, `generateInterviewQuestion`)

The primary tier issues a completion, strips one leading and one trailing
quote character (`raw.replace` with the anchored quote pattern), trims,
appends `?` when missing, rejects answers under 10 characters and
truncates answers over 300 characters to 297 characters plus `"..."`.
Any thrown error is caught and answered from the per-category template
pool of `QUESTION_TEMPLATES` (`llm-client.ts`), picked at a random index
— modelled by the parameter `r`, reduced modulo the pool size. -/

def openingTemplates : List String :=
  ["What's a moment from your life that still makes you smile when you think about it?",
   "If you could sit down with someone you love and share one story, what would it be?",
   "What's something about yourself that you hope people will always remember?"]

def memoriesTemplates : List String :=
  ["Tell me about a time when you felt most proud of yourself.",
   "What's a small, everyday moment that meant more to you than it might have seemed?",
   "Who has had the biggest impact on your life, and what did they teach you?",
   "What's a tradition or ritual that's been important to your family?"]

def wisdomTemplates : List String :=
  ["What's one piece of advice you wish someone had given you when you were younger?",
   "What have you learned about love that you'd want to pass on?",
   "What mistake taught you the most valuable lesson?",
   "What do you know now that you wish you could tell your younger self?"]

def feelingsTemplates : List String :=
  ["How do you want to be remembered by the people you love most?",
   "What do you hope people will say about the kind of person you were?",
   "What's something you've always wanted to tell someone but never found the right moment?",
   "What does it mean to you to live a meaningful life?"]

def futureTemplates : List String :=
  ["What dreams do you have for the people you love?",
   "What kind of world do you hope future generations will create?",
   "What values do you most want to pass down?",
   "What would you want someone to know if they were facing a difficult time?"]

/-- `QUESTION_TEMPLATES` from `llm-client.ts`. -/
def QUESTION_TEMPLATES : List (String × List String) :=
  [("OPENING", openingTemplates), ("MEMORIES", memoriesTemplates),
   ("WISDOM", wisdomTemplates), ("FEELINGS", feelingsTemplates),
   ("FUTURE", futureTemplates)]

/-- `getFallbackQuestion`: look the upper-cased category up in
`QUESTION_TEMPLATES` (default `OPENING`), then pick the entry at the
random index, modelled as `r` modulo the pool size. -/
def getFallbackQuestion (category : String) (r : Nat) : String :=
  match QUESTION_TEMPLATES.find? (fun p => p.1 == strToUpper category) with
  | some p => p.2.getD (r % p.2.length) ""
  | none => openingTemplates.getD (r % openingTemplates.length) ""

/-- The `followUp` strings of `EMOTIONAL_RESPONSES` (`llm-client.ts`). -/
def emotionalResponseFollowUps : List (String × String) :=
  [("joyful", "What other moments have filled you with this same kind of joy?"),
   ("nostalgic", "What made this memory so special that it stayed with you all this time?"),
   ("melancholic", "Sometimes our most meaningful memories carry both joy and sadness. What would you want someone to understand about this?"),
   ("grateful", "How has this gratitude shaped the way you see the world?"),
   ("vulnerable", "What would you want someone to know if they were going through something similar?"),
   ("hopeful", "What keeps this hope alive in your heart?")]

/-- `generateFollowUpSuggestions`: at most one follow-up for a known state. -/
def generateFollowUpSuggestions (emotionalState : String) : List String :=
  match emotionalResponseFollowUps.find? (fun p => p.1 == emotionalState) with
  | some p => [p.2]
  | none => []

def isQuoteChar (c : Char) : Bool := c = '"' || c = '\''

def dropTrailingQuote (l : List Char) : List Char :=
  match l.getLast? with
  | some c => if isQuoteChar c then l.dropLast else l
  | none => l

/-- JavaScript `raw.replace` with the anchored quote pattern: removes one
leading and one trailing quote character (a length-one string is consumed
by the leading alternative only). -/
def stripQuotes (s : String) : String :=
  match s.data with
  | [] => ⟨[]⟩
  | c :: rest =>
      if isQuoteChar c then ⟨dropTrailingQuote rest⟩ else ⟨dropTrailingQuote (c :: rest)⟩

/-- The `AIResponse` record of `webllm-manager.ts` (an absent `suggestions`
field is the empty list). -/
structure AIResponse where
  content : String
  confidence : Rat
  emotionalTone : String
  suggestions : List String
deriving DecidableEq, Repr

/-- The quote-strip / trim / `?`-append step of the primary tier. -/
def appendQuestionMark (cleaned : String) : String :=
  if strEndsWith cleaned "?" then cleaned else cleaned ++ "?"

/-- The validation and post-processing the primary tier applies to the raw
completion answer: reject empty answers, strip quotes, trim, append `?`,
reject answers under 10 characters, truncate answers over 300 characters
to 297 characters plus an ellipsis. -/
def cleanQuestion (raw : String) : Except Unit String :=
  if strTrim raw = "" then .error ()
  else if strLen (appendQuestionMark (strTrim (stripQuotes raw))) < 10 then .error ()
  else if strLen (appendQuestionMark (strTrim (stripQuotes raw))) > 300 then
    .ok (strTake (appendQuestionMark (strTrim (stripQuotes raw))) 297 ++ "...")
  else .ok (appendQuestionMark (strTrim (stripQuotes raw)))

/-- The `try` body of `generateInterviewQuestion`: parameter validation,
the completion call outcome, post-processing.  Any `Except.error` is what
the surrounding `catch` receives. -/
def questionCore (call : Except Unit (Option String))
    (emotionalState questionCategory : String) : Except Unit String :=
  if emotionalState = "" || questionCategory = "" then .error ()
  else
    match call with
    | .error _ => .error ()
    | .ok none => .error ()
    | .ok (some raw) => cleanQuestion raw

/-- `generateInterviewQuestion`.  The completion outcome is the parameter
`call` (`Except.error` covers a failed `initialize()` and a failed or
empty completion), `r` the fallback random index. -/
def generateInterviewQuestion (call : Except Unit (Option String))
    (emotionalState questionCategory : String) (r : Nat) : AIResponse :=
  match questionCore call emotionalState questionCategory with
  | .ok content =>
      { content := content, confidence := 8 / 10, emotionalTone := emotionalState,
        suggestions := generateFollowUpSuggestions emotionalState }
  | .error _ =>
      { content := getFallbackQuestion questionCategory r, confidence := 3 / 10,
        emotionalTone := emotionalState, suggestions := [] }

/-- All strings of the template pools. -/
def allQuestionTemplates : List String :=
  (QUESTION_TEMPLATES.map Prod.snd).flatten

theorem getD_mod_mem {α : Type} (l : List α) (r : Nat) (d : α) (h : l ≠ []) :
    l.getD (r % l.length) d ∈ l := by
  have hlen : 0 < l.length := List.length_pos.mpr h
  have hlt : r % l.length < l.length := Nat.mod_lt _ hlen
  rw [List.getD_eq_getElem l d hlt]
  exact List.getElem_mem hlt

theorem getFallbackQuestion_mem (category : String) (r : Nat) :
    getFallbackQuestion category r ∈ allQuestionTemplates := by
  unfold getFallbackQuestion
  cases hf : QUESTION_TEMPLATES.find? (fun p => p.1 == strToUpper category) with
  | none =>
      refine List.mem_flatten.mpr ⟨openingTemplates, ?_, getD_mod_mem _ r _ (by decide)⟩
      simp [allQuestionTemplates, QUESTION_TEMPLATES]
  | some p =>
      have hp := List.mem_of_find?_eq_some hf
      fin_cases hp <;>
        · refine List.mem_flatten.mpr ⟨_, ?_, getD_mod_mem _ r _ (by decide)⟩
          simp [allQuestionTemplates, QUESTION_TEMPLATES]

/-- Every template is non-empty and ends with `?`, except the first
`MEMORIES` template, which ends with a full stop. -/
theorem allQuestionTemplates_shape : ∀ q ∈ allQuestionTemplates,
    q ≠ "" ∧ (strEndsWith q "?" = true
      ∨ q = "Tell me about a time when you felt most proud of yourself.") := by
  decide

theorem strEndsWith_append (s t : String) : strEndsWith (s ++ t) t = true := by
  rw [strEndsWith, String.data_append, List.isSuffixOf_iff_suffix]
  exact List.suffix_append s.data t.data

theorem strLen_pos_ne_empty {s : String} (h : 0 < strLen s) : s ≠ "" := by
  intro he
  rw [he] at h
  simp [strLen] at h

theorem appendQuestionMark_ends (cleaned : String) :
    strEndsWith (appendQuestionMark cleaned) "?" = true := by
  unfold appendQuestionMark
  split
  · next h => exact h
  · exact strEndsWith_append _ _

theorem cleanQuestion_ok (raw content : String) (h : cleanQuestion raw = .ok content) :
    10 ≤ strLen content ∧ (strEndsWith content "?" = true ∨ strEndsWith content "..." = true) := by
  unfold cleanQuestion at h
  split at h
  · cases h
  · split at h
    · cases h
    · split at h
      · next hgt =>
          cases h
          constructor
          · have h3 : ("..." : String).data.length = 3 := by decide
            have h297 : (strTake (appendQuestionMark (strTrim (stripQuotes raw))) 297).data.length = 297 := by
              simp only [strTake, List.length_take]
              simp only [strLen] at hgt
              omega
            simp only [strLen, String.data_append, List.length_append, h3, h297]
            omega
          · exact Or.inr (strEndsWith_append _ _)
      · cases h
        refine ⟨by omega, Or.inl (appendQuestionMark_ends _)⟩

theorem questionCore_ok (call : Except Unit (Option String))
    (emotionalState questionCategory content : String)
    (h : questionCore call emotionalState questionCategory = .ok content) :
    10 ≤ strLen content ∧ (strEndsWith content "?" = true ∨ strEndsWith content "..." = true) := by
  unfold questionCore at h
  split at h
  · cases h
  · cases call with
    | error e => cases h
    | ok o =>
        cases o with
        | none => cases h
        | some raw => exact cleanQuestion_ok raw content h

set_option maxRecDepth 8192 in
/-- C6 (counterexample): two questions that do not end with `?`.  A
completion answer of 301 characters is truncated to 297 characters plus
an ellipsis, so the returned text ends with `"..."`; and the `MEMORIES`
fallback pool contains a template ending with a full stop, returned here
at fallback index 0. -/
theorem generateInterviewQuestion_claim_counterexample :
    strEndsWith (generateInterviewQuestion (.ok (some ⟨List.replicate 301 'a'⟩))
        "calm" "memories" 0).content "?" = false
    ∧ (generateInterviewQuestion (.error ()) "calm" "memories" 0).content
        = "Tell me about a time when you felt most proud of yourself." := by
  constructor
  · decide
  · rfl

/-- C6 (amended): every question `generateInterviewQuestion` returns is
non-empty, and it ends with `?` unless it is a primary-tier answer that
exceeded 300 characters (then it ends with the ellipsis `"..."`) or the
one `MEMORIES` fallback template that ends with a full stop. -/
theorem generateInterviewQuestion_nonempty_question_shape
    (call : Except Unit (Option String)) (emotionalState questionCategory : String) (r : Nat) :
    (generateInterviewQuestion call emotionalState questionCategory r).content ≠ ""
    ∧ (strEndsWith (generateInterviewQuestion call emotionalState questionCategory r).content "?" = true
       ∨ strEndsWith (generateInterviewQuestion call emotionalState questionCategory r).content "..." = true
       ∨ (generateInterviewQuestion call emotionalState questionCategory r).content
           = "Tell me about a time when you felt most proud of yourself.") := by
  unfold generateInterviewQuestion
  cases hc : questionCore call emotionalState questionCategory with
  | ok content =>
      obtain ⟨hlen, hshape⟩ := questionCore_ok call _ _ content hc
      have hne : content ≠ "" := strLen_pos_ne_empty (by omega)
      exact ⟨hne, hshape.imp id Or.inl⟩
  | error e =>
      obtain ⟨h1, h2⟩ := allQuestionTemplates_shape _ (getFallbackQuestion_mem questionCategory r)
      exact ⟨h1, h2.imp id Or.inr⟩

/-! ## Content generation (`webllm-manager.ts`, `generateTimeCapsuleContent`)

The primary tier issues a completion, parses a `Title:` line out of the
response (`parseGeneratedContent`, a JavaScript regex modelled below) and
rejects bodies under 50 characters; every thrown error — the empty
response set included — is caught and answered by `getFallbackContent`.

The title regex `(?:Title|TITLE):\s*(.+?)(?:\n|$)` with the `i` flag is
modelled by its deterministic backtracking semantics: at the first
position where `title:` matches case-insensitively, `\s*` prefers the
longest whitespace run after the colon and backs off one character at a
time until a non-newline character starts the lazily captured group,
which then extends to the next newline or the end of the string; if no
spacing works the scan moves on to the next position. -/

/-- Does `title:` match case-insensitively at the head of `l`? -/
def isTitleMarker (l : List Char) : Bool :=
  (l.take 6).map Char.toLower == "title:".data

/-- Can the captured group start at offset `k` (a character exists there
and it is not a newline)? -/
def groupStartOk (rest : List Char) (k : Nat) : Bool :=
  match rest.drop k with
  | [] => false
  | c :: _ => c != '\n'

/-- The largest `k` at most the given bound at which the captured group
can start: `\s*` backtracking from its greedy length. -/
def findSpacing (rest : List Char) : Nat → Option Nat
  | 0 => if groupStartOk rest 0 then some 0 else none
  | k + 1 => if groupStartOk rest (k + 1) then some (k + 1) else findSpacing rest k

/-- Match `\s*(.+?)(?:\n|$)` against `rest` (the text after `title:`):
the captured group and the number of characters the whole tail consumes. -/
def titleMatchAfter (rest : List Char) : Option (List Char × Nat) :=
  match findSpacing rest ((rest.takeWhile isWsChar).length) with
  | none => none
  | some k =>
      let group := (rest.drop k).takeWhile (fun c => c != '\n')
      (group, k + group.length + (if (rest.drop (k + group.length)).isEmpty then 0 else 1))

/-- Scan for the first full match of the title regex: start index,
captured group, total match length. -/
def findTitleMatch : List Char → Option (Nat × List Char × Nat)
  | [] => none
  | c :: t =>
      if isTitleMarker (c :: t) then
        match titleMatchAfter ((c :: t).drop 6) with
        | some (g, consumed) => some (0, g, 6 + consumed)
        | none =>
            match findTitleMatch t with
            | some (i, g, m) => some (i + 1, g, m)
            | none => none
      else
        match findTitleMatch t with
        | some (i, g, m) => some (i + 1, g, m)
        | none => none

/-- `parseGeneratedContent`: the pair (content, title).  The content is
the response with the matched title line removed and trimmed; the title
is the trimmed captured group, or the default when nothing matched. -/
def parseGeneratedContent (full : String) : String × String :=
  match findTitleMatch full.data with
  | some (i, g, m) =>
      (strTrim ⟨full.data.take i ++ full.data.drop (i + m)⟩, strTrim ⟨g⟩)
  | none => (strTrim full, "A Message from the Heart")

/-- JavaScript `content.split(' ')`. -/
def splitOnSpace : List Char → List (List Char)
  | [] => [[]]
  | c :: t =>
      if c = ' ' then [] :: splitOnSpace t
      else
        match splitOnSpace t with
        | h :: t' => (c :: h) :: t'
        | [] => [[c]]

/-- `content.split(' ').length`, the source's word count. -/
def wordCount (s : String) : Nat := (splitOnSpace s.data).length

/-- The filter `([q, a]) => q && a && a.trim().length > 0`. -/
def validResponses (responses : List (String × String)) : List (String × String) :=
  responses.filter (fun p => p.1 != "" && p.2 != "" && strTrim p.2 != "")

/-- The `Q:`/`A:` transcript handed to the model. -/
def responsesText (responses : List (String × String)) : String :=
  String.intercalate "\n\n"
    ((validResponses responses).map (fun p => "Q: " ++ p.1 ++ "\nA: " ++ p.2))

/-- The result record of `generateTimeCapsuleContent`. -/
structure ContentResult where
  content : String
  title : String
  emotionalTone : String
  wordCount : Nat
deriving DecidableEq, Repr

/-- The fixed fallback message used when no responses are available. -/
def fallbackEmptyMessage : String :=
  "Dear Future Reader,\n\nI wanted to create this living heirloom to share something meaningful with you. Though I may not have had the chance to share all my thoughts in detail, please know that you are deeply loved and cherished.\n\nThe memories we create, the love we share, and the wisdom we pass down are the true treasures of life. May this message serve as a reminder of the connection we share across time.\n\nWith all my love and hope for your future,\n[Your Name]"

def fallbackHeader : String :=
  "My Dear One,\n\nI wanted to share some thoughts with you that I hope will stay with you always.\n\n"

def fallbackFooter : String :=
  "These words come from my heart, carrying with them all the love and hope I have for you. May they serve as a reminder of the precious connection we share across time and generations.\n\nWith endless love,\n[Your Name]"

/-- One answered question rendered by the keyword classification of the
fallback tier (memory / wisdom / legacy / future, else verbatim). -/
def fallbackSentence (q a : String) : String :=
  if strIncludes (strToLower q) "moment" || strIncludes (strToLower q) "memory" then
    "When I think about precious moments, " ++ strTrim a ++ "\n\n"
  else if strIncludes (strToLower q) "wisdom" || strIncludes (strToLower q) "advice" then
    "Something I've learned that I want to share with you: " ++ strTrim a ++ "\n\n"
  else if strIncludes (strToLower q) "remember" || strIncludes (strToLower q) "legacy" then
    "I hope you'll remember this about me: " ++ strTrim a ++ "\n\n"
  else if strIncludes (strToLower q) "future" || strIncludes (strToLower q) "hope" then
    "For your future, I hope: " ++ strTrim a ++ "\n\n"
  else strTrim a ++ "\n\n"

def fallbackBody (responses : List (String × String)) : String :=
  responses.foldl
    (fun acc p => if p.2 != "" && strTrim p.2 != "" then acc ++ fallbackSentence p.1 p.2 else acc)
    fallbackHeader

/-- The tone-dependent fallback title. -/
def fallbackTitle (tone : String) : String :=
  if tone = "wise" || tone = "thoughtful" then "Wisdom for Tomorrow"
  else if tone = "poetic" || tone = "inspiring" then "A Legacy of Love"
  else if tone = "conversational" then "Thoughts to Share"
  else "A Message from the Heart"

/-- `getFallbackContent`: the guaranteed tier. -/
def getFallbackContent (responses : List (String × String)) (tone : String) : ContentResult :=
  if responses.isEmpty then
    { content := fallbackEmptyMessage, title := "A Message of Love",
      emotionalTone := tone, wordCount := wordCount fallbackEmptyMessage }
  else
    { content := fallbackBody responses ++ fallbackFooter, title := fallbackTitle tone,
      emotionalTone := tone, wordCount := wordCount (fallbackBody responses ++ fallbackFooter) }

/-- The `try` body of `generateTimeCapsuleContent`: response validation,
the completion call outcome (parameter `call`), title parsing and the
50-character body check.  Every `Except.error` is caught by the
surrounding `catch`, which answers with `getFallbackContent` — the
validation error for an empty response set included. -/
def contentCore (call : Except Unit (Option String))
    (responses : List (String × String)) (tone : String) : Except Unit ContentResult :=
  if responses.isEmpty then .error ()
  else if strTrim (responsesText responses) = "" then .error ()
  else
    match call with
    | .error _ => .error ()
    | .ok none => .error ()
    | .ok (some full) =>
        if strTrim full = "" then .error ()
        else if (parseGeneratedContent full).1 = "" ∨ strLen (strTrim (parseGeneratedContent full).1) < 50 then
          .error ()
        else
          .ok { content := (parseGeneratedContent full).1, title := (parseGeneratedContent full).2,
                emotionalTone := tone, wordCount := wordCount (parseGeneratedContent full).1 }

/-- `generateTimeCapsuleContent` (the `length` argument only shapes the
prompt and the token budget, which the completion outcome parameter
already absorbs). -/
def generateTimeCapsuleContent (call : Except Unit (Option String))
    (responses : List (String × String)) (tone length : String) : ContentResult :=
  match contentCore call responses tone with
  | .ok r => r
  | .error _ => getFallbackContent responses tone

theorem data_eq_nil_iff (s : String) : s.data = [] ↔ s = "" := by
  constructor
  · intro h
    cases s
    simp only at h
    rw [h]
  · intro h
    rw [h]

theorem append_ne_empty_right (s t : String) (h : t ≠ "") : s ++ t ≠ "" := by
  intro he
  have hd : (s ++ t).data = [] := (data_eq_nil_iff _).mpr he
  rw [String.data_append] at hd
  exact h ((data_eq_nil_iff t).mp (List.append_eq_nil.mp hd).2)

theorem getFallbackContent_content_ne (responses : List (String × String)) (tone : String) :
    (getFallbackContent responses tone).content ≠ "" := by
  unfold getFallbackContent
  split
  · dsimp only
    decide
  · exact append_ne_empty_right _ _ (by decide)

theorem getFallbackContent_title_ne (responses : List (String × String)) (tone : String) :
    (getFallbackContent responses tone).title ≠ "" := by
  unfold getFallbackContent
  split
  · dsimp only
    decide
  · show fallbackTitle tone ≠ ""
    unfold fallbackTitle
    split
    · decide
    · split
      · decide
      · split
        · decide
        · decide

theorem contentCore_ok (call : Except Unit (Option String))
    (responses : List (String × String)) (tone : String) (r : ContentResult)
    (h : contentCore call responses tone = .ok r) :
    r.content ≠ "" ∧ ∃ s, call = .ok (some s) := by
  unfold contentCore at h
  split at h
  · cases h
  · split at h
    · cases h
    · split at h
      · cases h
      · cases h
      · next _ raw =>
          split at h
          · cases h
          · split at h
            · cases h
            · next hguard =>
                cases h
                exact ⟨fun hc => hguard (Or.inl hc), raw, rfl⟩

/-- C5 (counterexample): `generateContent` does not raise a validation
error on an empty response set — the thrown error is caught and the
built-in fallback result (title `"A Message of Love"`, non-empty content)
is returned to the caller; and a successful completion whose `Title:`
line carries only whitespace produces an *empty* title, so the non-empty
title guarantee also fails on the primary path. -/
theorem generateTimeCapsuleContent_claim_counterexample :
    (generateTimeCapsuleContent (.error ()) [] "heartfelt" "medium").title = "A Message of Love"
    ∧ (generateTimeCapsuleContent (.error ()) [] "heartfelt" "medium").content ≠ ""
    ∧ (generateTimeCapsuleContent
        (.ok (some "This body text is certainly longer than fifty characters in total, I promise.\nTitle: "))
        [("q", "a meaningful answer")] "heartfelt" "medium").title = "" := by
  refine ⟨rfl, by decide, ?_⟩
  rfl

/-- C5 (amended): `generateContent` never raises: its content is non-empty
for every input (an empty response set yields the built-in fallback
message), and its title is non-empty whenever the completion call does
not succeed; only a successful completion with a blank `Title:` line can
make the title empty. -/
theorem generateTimeCapsuleContent_total_nonempty (call : Except Unit (Option String))
    (responses : List (String × String)) (tone length : String) :
    (generateTimeCapsuleContent call responses tone length).content ≠ ""
    ∧ ((∀ s, call ≠ .ok (some s)) →
        (generateTimeCapsuleContent call responses tone length).title ≠ "") := by
  unfold generateTimeCapsuleContent
  cases hc : contentCore call responses tone with
  | ok r =>
      obtain ⟨hne, s, hs⟩ := contentCore_ok call responses tone r hc
      exact ⟨hne, fun hfail => absurd hs (hfail s)⟩
  | error e =>
      exact ⟨getFallbackContent_content_ne responses tone,
             fun _ => getFallbackContent_title_ne responses tone⟩

/-! ## Model lifecycle (`webllm-manager.ts`, `initialize` / `doInitialize`)

The manager's mutable fields (`isInitialized`, `initPromise`, `engine`)
and the progress notifications are modelled as an explicit state record;
`initialize()` is the synchronous entry point that decides whether to
return at once, attach to the in-flight attempt, or start `doInitialize`,
and the asynchronous body of `doInitialize` is modelled by its two
terminal outcomes (success after a list of progress reports; failure,
e.g. losing the race against the 120-second timeout).  Progress
fractions are rationals standing for the source's floating point values
(only the comparisons against 0.2, 0.5, 0.8 matter). -/

inductive Stage
  | downloading
  | loading
  | ready
  | error
deriving DecidableEq, Repr, BEq

/-- The `AILoadingProgress` event record. -/
structure AILoadingProgress where
  progress : Rat
  text : String
  stage : Stage
deriving DecidableEq, Repr

/-- The manager's mutable state: `isInitialized`, `initPromise` (an
attempt id standing for the stored promise), `engine` presence, and the
cumulative list of progress events broadcast so far. -/
structure MgrState where
  isInitialized : Bool
  initPromise : Option Nat
  engine : Bool
  events : List AILoadingProgress
deriving DecidableEq, Repr

def freshMgr : MgrState :=
  { isInitialized := false, initPromise := none, engine := false, events := [] }

/-- What a call to `initialize()` does before any asynchronous work. -/
inductive InitDecision
  | returnImmediately
  | attach (id : Nat)
  | startNew (id : Nat)
deriving DecidableEq, Repr

/-- `initialize()`: return at once when initialized; attach to the stored
in-flight promise when one exists; otherwise store a fresh promise (id
`freshId`) and run `doInitialize`. -/
def initCall (s : MgrState) (freshId : Nat) : MgrState × InitDecision :=
  if s.isInitialized then (s, .returnImmediately)
  else
    match s.initPromise with
    | some p => (s, .attach p)
    | none => ({ s with initPromise := some freshId }, .startNew freshId)

/-- `notifyProgress`: broadcast to the subscribers and the global event
channel — modelled as appending to the event log. -/
def notifyProgress (s : MgrState) (p : AILoadingProgress) : MgrState :=
  { s with events := s.events ++ [p] }

/-- The fraction-threshold progress message of `initProgressCallback`. -/
def progressMessage (p : Rat) : String :=
  if p < 2 / 10 then "Downloading AI model files..."
  else if p < 5 / 10 then "Processing model components..."
  else if p < 8 / 10 then "Preparing model for use..."
  else "Finalizing AI initialization..."

def progressStage (p : Rat) : Stage :=
  if p < 8 / 10 then .downloading else .loading

def reportProgress (s : MgrState) (p : Rat) : MgrState :=
  notifyProgress s { progress := p, text := progressMessage p, stage := progressStage p }

/-- The error-message classification of the `catch` block in
`doInitialize` (note that the timeout rejection message
`"AI initialization timed out"` does not contain the substring
`"timeout"`, so it classifies as `"AI unavailable"`). -/
def initErrorText (msg : String) : String :=
  if strIncludes msg "timeout" then "AI initialization timed out"
  else if strIncludes msg "network" then "Network error loading AI"
  else if strIncludes msg "memory" then "Insufficient memory for AI"
  else "AI unavailable"

/-- `doInitialize`, successful run: the initial notification, the progress
reports, engine assignment, `isInitialized := true`, the ready
notification.  (The subsequent warm-up call changes no state even when it
fails.)  `initPromise` keeps its value: the source never clears it here. -/
def doInitSuccess (s : MgrState) (reports : List Rat) : MgrState :=
  let s1 := notifyProgress s { progress := 0, text := "Initializing AI...", stage := .downloading }
  let s2 := reports.foldl reportProgress s1
  let s3 := { s2 with engine := true, isInitialized := true }
  notifyProgress s3 { progress := 1, text := "AI ready for conversations!", stage := .ready }

/-- `doInitialize`, failed run (the 120-second timeout losing the race
included, with rejection message `"AI initialization timed out"`): the
initial notification, the progress reports seen before the failure, then
the error notification; the error is re-thrown.  `engine` and
`isInitialized` keep their values — and so does `initPromise`: the
`catch` block never clears it. -/
def doInitFailure (s : MgrState) (reports : List Rat) (msg : String) : MgrState :=
  let s1 := notifyProgress s { progress := 0, text := "Initializing AI...", stage := .downloading }
  let s2 := reports.foldl reportProgress s1
  notifyProgress s2 { progress := 0, text := initErrorText msg, stage := .error }

/-- `unload()`: release the engine and clear every marker. -/
def unloadCall (s : MgrState) : MgrState :=
  if s.engine then
    { s with engine := false, isInitialized := false, initPromise := none }
  else s

def countReadyEvents (s : MgrState) : Nat :=
  s.events.countP (fun e => e.stage == Stage.ready)

theorem countReadyEvents_notify (s : MgrState) (p : AILoadingProgress) :
    countReadyEvents (notifyProgress s p) =
      countReadyEvents s + (if p.stage == Stage.ready then 1 else 0) := by
  simp [countReadyEvents, notifyProgress, List.countP_append, List.countP_cons]

theorem countReadyEvents_reports (reports : List Rat) (s : MgrState) :
    countReadyEvents (reports.foldl reportProgress s) = countReadyEvents s := by
  induction reports generalizing s with
  | nil => rfl
  | cons p t ih =>
      rw [List.foldl_cons, ih]
      rw [reportProgress, countReadyEvents_notify]
      have : (progressStage p == Stage.ready) = false := by
        unfold progressStage
        split <;> rfl
      simp [this]

/-- C3 (counterexample): when the load times out, the in-flight marker is
NOT cleared.  Starting from a fresh manager, `initialize()` stores
promise 0 and starts the load; after the timeout failure the state still
holds `initPromise = some 0` with `isInitialized = false`, and a second
`initialize()` call attaches to that same dead promise instead of
starting a fresh attempt. -/
theorem timeout_keeps_initPromise_counterexample :
    ((doInitFailure (initCall freshMgr 0).1 [] "AI initialization timed out").initPromise = some 0)
    ∧ ((doInitFailure (initCall freshMgr 0).1 [] "AI initialization timed out").isInitialized = false)
    ∧ (initCall (doInitFailure (initCall freshMgr 0).1 [] "AI initialization timed out") 1).2
        = .attach 0 := by
  refine ⟨rfl, rfl, rfl⟩

/-- C3 (amended): a timed-out load does fail the operation (the rejected
promise carries the timeout error, re-thrown by the `catch`) and does
emit an error-stage progress event — though the event text is
`"AI unavailable"`, because the rejection message `"AI initialization
timed out"` does not contain the substring `"timeout"` — but the
in-flight marker survives: `initPromise` still holds the failed attempt,
`isInitialized` stays false, and every later `initialize()` call attaches
to the same failed operation; only `unload()` clears the marker. -/
theorem timeout_emits_error_and_keeps_marker (s : MgrState) (k j : Nat)
    (hinit : s.isInitialized = false) (hp : s.initPromise = none)
    (reports : List Rat) :
    ((doInitFailure (initCall s k).1 reports "AI initialization timed out").events.getLast?
        = some { progress := 0, text := "AI unavailable", stage := .error })
    ∧ ((doInitFailure (initCall s k).1 reports "AI initialization timed out").isInitialized = false)
    ∧ ((doInitFailure (initCall s k).1 reports "AI initialization timed out").initPromise = some k)
    ∧ ((initCall (doInitFailure (initCall s k).1 reports "AI initialization timed out") j).2
        = .attach k)
    ∧ ((unloadCall { doInitFailure (initCall s k).1 reports "AI initialization timed out"
          with engine := true }).initPromise = none) := by
  have hstart : initCall s k = ({ s with initPromise := some k }, .startNew k) := by
    unfold initCall
    rw [hinit, hp]
    rfl
  have htext : initErrorText "AI initialization timed out" = "AI unavailable" := by decide
  rw [hstart]
  unfold doInitFailure
  refine ⟨?_, ?_, ?_, ?_, ?_⟩
  · simp [notifyProgress, htext]
  · have : ∀ (l : List Rat) (t : MgrState), (l.foldl reportProgress t).isInitialized = t.isInitialized := by
      intro l
      induction l with
      | nil => intro t; rfl
      | cons p ttl ih => intro t; rw [List.foldl_cons]; exact ih _
    simp [notifyProgress, this, hinit]
  · have : ∀ (l : List Rat) (t : MgrState), (l.foldl reportProgress t).initPromise = t.initPromise := by
      intro l
      induction l with
      | nil => intro t; rfl
      | cons p ttl ih => intro t; rw [List.foldl_cons]; exact ih _
    simp [notifyProgress, this]
  · have hiP : ∀ (l : List Rat) (t : MgrState), (l.foldl reportProgress t).initPromise = t.initPromise := by
      intro l
      induction l with
      | nil => intro t; rfl
      | cons p ttl ih => intro t; rw [List.foldl_cons]; exact ih _
    have hiI : ∀ (l : List Rat) (t : MgrState), (l.foldl reportProgress t).isInitialized = t.isInitialized := by
      intro l
      induction l with
      | nil => intro t; rfl
      | cons p ttl ih => intro t; rw [List.foldl_cons]; exact ih _
    unfold initCall
    simp [notifyProgress, hiP, hiI, hinit]
  · rfl

theorem timeout_emits_error_and_keeps_marker_witness :
    ((doInitFailure (initCall freshMgr 5).1 [1 / 10] "AI initialization timed out").events.getLast?
        = some { progress := 0, text := "AI unavailable", stage := .error })
    ∧ ((doInitFailure (initCall freshMgr 5).1 [1 / 10] "AI initialization timed out").isInitialized = false)
    ∧ ((doInitFailure (initCall freshMgr 5).1 [1 / 10] "AI initialization timed out").initPromise = some 5)
    ∧ ((initCall (doInitFailure (initCall freshMgr 5).1 [1 / 10] "AI initialization timed out") 6).2
        = .attach 5)
    ∧ ((unloadCall { doInitFailure (initCall freshMgr 5).1 [1 / 10] "AI initialization timed out"
          with engine := true }).initPromise = none) :=
  timeout_emits_error_and_keeps_marker freshMgr 5 6 rfl rfl [1 / 10]

/-- C4: `initialize()` is idempotent and de-duplicating.  From a fresh
manager, the first call starts attempt `i` and the second call attaches
to that same attempt instead of starting a second download, so after the
shared load completes the event log holds exactly one ready-stage event;
and on an already-initialized manager, `initialize()` returns immediately
with the state untouched. -/
theorem initCall_idempotent_dedup (reports : List Rat) (i j : Nat) :
    ((initCall freshMgr i).2 = .startNew i)
    ∧ ((initCall (initCall freshMgr i).1 j).2 = .attach i)
    ∧ ((initCall (initCall freshMgr i).1 j).1 = (initCall freshMgr i).1)
    ∧ (countReadyEvents (doInitSuccess (initCall (initCall freshMgr i).1 j).1 reports) = 1)
    ∧ (∀ s : MgrState, s.isInitialized = true → initCall s i = (s, .returnImmediately)) := by
    refine ⟨rfl, rfl, rfl, ?_, ?_⟩
    · unfold doInitSuccess
      rw [countReadyEvents_notify]
      have h2 : countReadyEvents { (reports.foldl reportProgress
          (notifyProgress (initCall (initCall freshMgr i).1 j).1
            { progress := 0, text := "Initializing AI...", stage := .downloading }))
          with engine := true, isInitialized := true } = countReadyEvents (reports.foldl reportProgress
          (notifyProgress (initCall (initCall freshMgr i).1 j).1
            { progress := 0, text := "Initializing AI...", stage := .downloading })) := rfl
      rw [h2, countReadyEvents_reports]
      rfl
    · intro s hs
      unfold initCall
      rw [hs]
      rfl

/-! ## Voice cloning and speech synthesis (`useVoice.ts`, `database.ts` hooks)

Audio blobs are modelled by their byte sizes (the only attribute the
embedded code inspects).  `db.voiceModels.add` runs the `creating` hook
of `LivingHeirloomDB`: `sanitizeVoiceModel` (which applies
`sanitizeName` to `name` and `modelId`) followed by the zod
`VoiceModelSchema` validation, modelled by `validateVoiceModel`.  The
ElevenLabs client calls are outcome parameters; `generateSpeech` also
returns how many times the synthesis client was invoked, to express the
no-network-call property. -/

/-- JavaScript `\w` (ASCII word character). -/
def isWordChar (c : Char) : Bool := c.isAlphanum || c = '_'

/-- The character class kept by `sanitizeName` (`[^\w\s'-]` removed). -/
def nameKeepChar (c : Char) : Bool := isWordChar c || isWsChar c || c = '\'' || c = '-'

/-- `replace(/\s+/g, ' ')`: each maximal whitespace run becomes one space. -/
def collapseWsGo : List Char → Bool → List Char
  | [], _ => []
  | c :: t, prev =>
      if isWsChar c then
        (if prev then collapseWsGo t true else ' ' :: collapseWsGo t true)
      else c :: collapseWsGo t false

def collapseWs (l : List Char) : List Char := collapseWsGo l false

/-- `sanitizeName` (`sanitization.ts`): trim, drop characters outside
`[\w\s'-]`, collapse whitespace runs, truncate to 100 characters. -/
def sanitizeName (input : String) : String :=
  strTake ⟨collapseWs ((strTrim input).data.filter nameKeepChar)⟩ 100

/-- The `VoiceModel` record (`database.ts`), blobs as byte sizes. -/
structure VoiceModel where
  modelId : String
  name : String
  samples : List String
  sampleBlobSizes : List Nat
  createdAt : Nat
  isActive : Bool
  isElevenLabsModel : Bool
  quality : String
deriving DecidableEq, Repr

/-- The zod regex class `[a-zA-Z0-9\s'-]` of `VoiceModelSchema.name`. -/
def voiceNameChar (c : Char) : Bool := c.isAlphanum || isWsChar c || c = '\'' || c = '-'

/-- The `VoiceModelSchema` checks of `schemas.ts` that bear on the fields
modelled here: `modelId` non-empty; `name` between 2 and 50 characters
and inside the regex class; at least one sample name; at least 3 sample
blobs, each of positive size under 50 MB (`BlobSchema`); a recognised
quality tier. -/
def validateVoiceModel (m : VoiceModel) : Bool :=
  1 ≤ strLen m.modelId
  && (2 ≤ strLen m.name && strLen m.name ≤ 50 && m.name.data.all voiceNameChar)
  && 1 ≤ m.samples.length
  && (3 ≤ m.sampleBlobSizes.length
      && m.sampleBlobSizes.all (fun sz => 0 < sz && sz < 50 * 1024 * 1024))
  && (m.quality == "high" || m.quality == "medium" || m.quality == "low")

/-- `sanitizeVoiceModel` (`database.ts`): sanitize `name` and `modelId`,
copy the safe fields. -/
def sanitizeVoiceModel (m : VoiceModel) : VoiceModel :=
  { m with name := sanitizeName m.name, modelId := sanitizeName m.modelId }

/-- `db.voiceModels.add` with the `creating` hook: sanitize, validate
(throwing on failure), append. -/
def dbAddVoiceModel (db : List VoiceModel) (m : VoiceModel) : Except String (List VoiceModel) :=
  if validateVoiceModel (sanitizeVoiceModel m) then .ok (db ++ [sanitizeVoiceModel m])
  else .error "Invalid voice model data"

/-- `db.voiceModels.where('modelId').equals(mid).first()`. -/
def dbFindVoiceModel (db : List VoiceModel) (mid : String) : Option VoiceModel :=
  db.find? (fun m => m.modelId == mid)

/-- `voiceConfig.requiredSamples` (default 3). -/
def requiredSamples : Nat := 3

/-- `voiceConfig.maxFileSize` (default 10 MB). -/
def maxVoiceFileSize : Nat := 10 * 1024 * 1024

/-- The per-sample quality loop of `cloneVoice`: first violation wins. -/
def sampleErrorGo : List Nat → Nat → Option String
  | [], _ => none
  | sz :: t, i =>
      if sz = 0 then some ("Voice sample " ++ toString (i + 1) ++ " is empty or corrupted")
      else if sz < 1000 then
        some ("Voice sample " ++ toString (i + 1) ++ " is too short for quality cloning")
      else if sz > maxVoiceFileSize then
        some ("Voice sample " ++ toString (i + 1) ++ " is too large (max 10MB)")
      else sampleErrorGo t (i + 1)

def sampleError (samples : List Nat) : Option String := sampleErrorGo samples 0

/-- The model id used after the remote attempt: the ElevenLabs voice id
on success, `local_${Date.now()}_${random}` on failure, with the
timestamp-and-base36 part modelled as `localSuffix`. -/
def cloneModelId (remote : Except String String) (localSuffix : String) : String :=
  match remote with
  | .ok id => id
  | .error _ => "local_" ++ localSuffix

/-- The `isElevenLabsModel` flag after the remote attempt. -/
def cloneIsRemote (remote : Except String String) : Bool :=
  match remote with
  | .ok _ => true
  | .error _ => false

/-- `isElevenLabsModel ? 'high' : 'medium'`. -/
def cloneQuality (remote : Except String String) : String :=
  match remote with
  | .ok _ => "high"
  | .error _ => "medium"

/-- `cloneVoice`.  `remote` is the outcome of
`elevenLabsClient.cloneVoice`.  Returns the model id and the updated
store. -/
def cloneVoice (remote : Except String String) (db : List VoiceModel)
    (name : String) (samples : List Nat) (now : Nat) (localSuffix : String) :
    Except String (String × List VoiceModel) :=
  if name = "" ∨ strTrim name = "" then .error "Voice name is required for cloning"
  else if samples = [] then .error "Voice samples are required for cloning"
  else if samples.length < requiredSamples then
    .error ("At least " ++ toString requiredSamples
      ++ " voice samples are required for quality cloning")
  else
    match sampleError samples with
    | some e => .error ("Voice Cloning Error: " ++ e)
    | none =>
        match dbAddVoiceModel db
            { modelId := cloneModelId remote localSuffix, name := strTrim name,
              samples := (List.range samples.length).map
                (fun idx => "sample_" ++ toString idx ++ ".wav"),
              sampleBlobSizes := samples, createdAt := now, isActive := true,
              isElevenLabsModel := cloneIsRemote remote,
              quality := cloneQuality remote } with
        | .ok db' => .ok (cloneModelId remote localSuffix, db')
        | .error _ => .error "Voice Cloning Error: Failed to save voice model. Please try again."

theorem sampleErrorGo_none (samples : List Nat) (i : Nat)
    (h : ∀ sz ∈ samples, 1000 ≤ sz ∧ sz ≤ maxVoiceFileSize) :
    sampleErrorGo samples i = none := by
  induction samples generalizing i with
  | nil => rfl
  | cons sz t ih =>
      obtain ⟨h1, h2⟩ := h sz (List.mem_cons_self sz t)
      unfold sampleErrorGo
      rw [if_neg (by omega), if_neg (by omega), if_neg (by omega)]
      exact ih (i + 1) (fun x hx => h x (List.mem_cons_of_mem _ hx))

theorem strLen_append (s t : String) : strLen (s ++ t) = strLen s + strLen t := by
  simp [strLen, String.data_append]

theorem dbFind_append_self (db : List VoiceModel) (m : VoiceModel)
    (h : dbFindVoiceModel db m.modelId = none) :
    dbFindVoiceModel (db ++ [m]) m.modelId = some m := by
  unfold dbFindVoiceModel at h ⊢
  rw [List.find?_append, h]
  simp

/-- C7: if the remote clone call fails for a valid name and at least 3
valid samples, the failure is not propagated: `cloneVoice` still returns
the locally generated model id, the persisted record is local-origin
(`isElevenLabsModel = false`), quality `"medium"` and `isActive = true`,
and looking that id up in the updated store yields that record.  The
hypotheses say the (sanitized, trimmed) name passes the schema checks,
the samples pass the size window, `sanitizeName` leaves the generated id
unchanged (it consists of word characters) and the id is fresh. -/
theorem cloneVoice_remote_failure_returns_local_record
    (err : String) (db : List VoiceModel) (name : String) (samples : List Nat)
    (now : Nat) (localSuffix : String)
    (hname2 : 2 ≤ strLen (sanitizeName (strTrim name)))
    (hname50 : strLen (sanitizeName (strTrim name)) ≤ 50)
    (hnameChars : (sanitizeName (strTrim name)).data.all voiceNameChar = true)
    (hcount : 3 ≤ samples.length)
    (hsizes : ∀ sz ∈ samples, 1000 ≤ sz ∧ sz ≤ maxVoiceFileSize)
    (hsuffix : sanitizeName ("local_" ++ localSuffix) = "local_" ++ localSuffix)
    (hfresh : dbFindVoiceModel db ("local_" ++ localSuffix) = none) :
    ∃ db' vm, cloneVoice (.error err) db name samples now localSuffix
        = .ok ("local_" ++ localSuffix, db')
      ∧ dbFindVoiceModel db' ("local_" ++ localSuffix) = some vm
      ∧ vm.isElevenLabsModel = false ∧ vm.quality = "medium" ∧ vm.isActive = true := by
  have hTrimNe : ¬(name = "" ∨ strTrim name = "") := by
    rintro (h | h) <;> · rw [h] at hname2; exact absurd hname2 (by decide)
  have hNotNil : ¬(samples = []) := by
    intro h
    rw [h] at hcount
    exact absurd hcount (by decide)
  have hNotShort : ¬(samples.length < requiredSamples) := by
    unfold requiredSamples
    omega
  have hsanRec :
      sanitizeVoiceModel
        { modelId := "local_" ++ localSuffix, name := strTrim name,
          samples := (List.range samples.length).map
            (fun idx => "sample_" ++ toString idx ++ ".wav"),
          sampleBlobSizes := samples, createdAt := now, isActive := true,
          isElevenLabsModel := false, quality := "medium" }
      = { modelId := "local_" ++ localSuffix, name := sanitizeName (strTrim name),
          samples := (List.range samples.length).map
            (fun idx => "sample_" ++ toString idx ++ ".wav"),
          sampleBlobSizes := samples, createdAt := now, isActive := true,
          isElevenLabsModel := false, quality := "medium" } := by
    unfold sanitizeVoiceModel
    dsimp only
    rw [hsuffix]
  have hval : validateVoiceModel
      { modelId := "local_" ++ localSuffix, name := sanitizeName (strTrim name),
        samples := (List.range samples.length).map
          (fun idx => "sample_" ++ toString idx ++ ".wav"),
        sampleBlobSizes := samples, createdAt := now, isActive := true,
        isElevenLabsModel := false, quality := "medium" } = true := by
    unfold validateVoiceModel
    simp only [Bool.and_eq_true, Bool.or_eq_true, decide_eq_true_eq]
    and_intros <;>
      first
      | exact hname2
      | exact hname50
      | exact hnameChars
      | exact hcount
      | (rw [strLen_append]
         have h6 : strLen "local_" = 6 := by decide
         omega)
      | (rw [List.length_map, List.length_range]
         omega)
      | (rw [List.all_eq_true]
         intro sz hsz
         obtain ⟨h1, h2⟩ := hsizes sz hsz
         have hm : maxVoiceFileSize = 10 * 1024 * 1024 := rfl
         rw [hm] at h2
         simp only [Bool.and_eq_true, decide_eq_true_eq]
         omega)
      | decide
  have hmid : cloneModelId (.error err) localSuffix = "local_" ++ localSuffix := rfl
  have hrem : cloneIsRemote (Except.error err : Except String String) = false := rfl
  have hqual : cloneQuality (Except.error err : Except String String) = "medium" := rfl
  unfold cloneVoice
  rw [if_neg hTrimNe, if_neg hNotNil, if_neg hNotShort,
      sampleError, sampleErrorGo_none samples 0 hsizes, hmid, hrem, hqual]
  unfold dbAddVoiceModel
  rw [hsanRec, if_pos hval]
  exact
    let vm0 : VoiceModel :=
      { modelId := "local_" ++ localSuffix, name := sanitizeName (strTrim name),
        samples := (List.range samples.length).map
          (fun idx => "sample_" ++ toString idx ++ ".wav"),
        sampleBlobSizes := samples, createdAt := now, isActive := true,
        isElevenLabsModel := false, quality := "medium" }
    ⟨db ++ [vm0], vm0, rfl, dbFind_append_self db vm0 hfresh, rfl, rfl, rfl⟩

theorem cloneVoice_remote_failure_returns_local_record_witness :
    ∃ db' vm, cloneVoice (.error "network error") [] "Mom" [2000, 2000, 2000] 0 "17000_abc123xyz"
        = .ok ("local_" ++ "17000_abc123xyz", db')
      ∧ dbFindVoiceModel db' ("local_" ++ "17000_abc123xyz") = some vm
      ∧ vm.isElevenLabsModel = false ∧ vm.quality = "medium" ∧ vm.isActive = true :=
  cloneVoice_remote_failure_returns_local_record "network error" [] "Mom" [2000, 2000, 2000] 0
    "17000_abc123xyz" (by decide) (by decide) (by decide) (by decide)
    (by decide) (by decide) (by decide)

/-- `targetVoiceId = voiceId || currentVoiceModel?.modelId`. -/
def resolveTarget (voiceId currentModelId : Option String) : Option String :=
  match voiceId with
  | some v => if v = "" then currentModelId else some v
  | none => currentModelId

/-- `generateSpeech` (`useVoice.ts`).  `remoteSynth` is the outcome of
`elevenLabsClient.generateSpeech` (the audio bytes); the second component
of the result counts how many times that client was invoked, so that
"never attempts a network call" is expressible.  Error strings carry the
`Speech Generation Error:` prefix the outer `catch` adds to errors thrown
inside the `try`. -/
def generateSpeech (remoteSynth : Except String (List Nat)) (db : List VoiceModel)
    (currentModelId : Option String) (text : String) (voiceId : Option String) :
    Except String (List Nat) × Nat :=
  if text = "" ∨ strTrim text = "" then
    (.error "Text is required for speech generation", 0)
  else if 5000 < strLen text then
    (.error "Text is too long for speech generation (max 5000 characters)", 0)
  else
    match resolveTarget voiceId currentModelId with
    | none => (.error "Speech Generation Error: No voice model available for speech generation", 0)
    | some targetId =>
        match dbFindVoiceModel db targetId with
        | none => (.error "Speech Generation Error: Voice model not found in database", 0)
        | some vm =>
            if vm.isActive = false then
              (.error "Speech Generation Error: Voice model is not active", 0)
            else if vm.isElevenLabsModel then
              match remoteSynth with
              | .ok buf =>
                  if buf = [] then
                    (.error "Speech Generation Error: Voice synthesis service is temporarily unavailable", 1)
                  else (.ok buf, 1)
              | .error _ =>
                  (.error "Speech Generation Error: Voice synthesis service is temporarily unavailable", 1)
            else
              (.error "Speech Generation Error: Local voice synthesis is not yet available. Please use ElevenLabs voice models for speech generation.", 0)

/-- An inactive local-origin model, as persisted by a clone whose record
was later deactivated by user selection. -/
def inactiveLocalModel : VoiceModel :=
  { modelId := "local_1", name := "Mom", samples := ["sample_0.wav"],
    sampleBlobSizes := [2000, 2000, 2000], createdAt := 0, isActive := false,
    isElevenLabsModel := false, quality := "medium" }

/-- C8 (counterexample): a voice id resolving to a local-origin model
does not always fail with the unsupported-operation error: when the
local model is inactive, the `isActive` check fires first and the caller
sees `"Voice model is not active"` instead (still with no network
call). -/
theorem generateSpeech_claim_counterexample :
    (generateSpeech (.error "unused") [inactiveLocalModel] none "hi" (some "local_1")).1
      = .error "Speech Generation Error: Voice model is not active"
    ∧ (generateSpeech (.error "unused") [inactiveLocalModel] none "hi" (some "local_1")).1
      ≠ .error "Speech Generation Error: Local voice synthesis is not yet available. Please use ElevenLabs voice models for speech generation."
    ∧ (generateSpeech (.error "unused") [inactiveLocalModel] none "hi" (some "local_1")).2 = 0 := by
  refine ⟨rfl, ?_, rfl⟩
  intro h
  injection h with h2
  exact absurd h2 (by decide)

/-- C8 (amended): `generateSpeech` fails on empty or over-5000-character
text without touching the network; a voice id resolving to a local-origin
model always fails with no network call — with the explicit
unsupported-operation error when the model is active and the text is
valid, and with the `not active` error when the model is inactive; only
a remote-origin (active) model reaches the synthesis client, and that
path fails when the client errors or returns an empty buffer. -/
theorem generateSpeech_local_never_network (remoteSynth : Except String (List Nat))
    (db : List VoiceModel) (currentModelId : Option String)
    (text : String) (voiceId : Option String) :
    ((text = "" ∨ strTrim text = "" ∨ 5000 < strLen text) →
      ((generateSpeech remoteSynth db currentModelId text voiceId).1.isOk = false
       ∧ (generateSpeech remoteSynth db currentModelId text voiceId).2 = 0))
    ∧ (∀ targetId vm, resolveTarget voiceId currentModelId = some targetId →
        dbFindVoiceModel db targetId = some vm → vm.isElevenLabsModel = false →
          ((generateSpeech remoteSynth db currentModelId text voiceId).2 = 0
           ∧ (generateSpeech remoteSynth db currentModelId text voiceId).1.isOk = false
           ∧ (vm.isActive = true → text ≠ "" → strTrim text ≠ "" → strLen text ≤ 5000 →
               (generateSpeech remoteSynth db currentModelId text voiceId).1
                 = .error "Speech Generation Error: Local voice synthesis is not yet available. Please use ElevenLabs voice models for speech generation.")))
    ∧ (∀ targetId vm, resolveTarget voiceId currentModelId = some targetId →
        dbFindVoiceModel db targetId = some vm → vm.isElevenLabsModel = true →
        vm.isActive = true → text ≠ "" → strTrim text ≠ "" → strLen text ≤ 5000 →
          ((generateSpeech remoteSynth db currentModelId text voiceId).2 = 1
           ∧ (∀ buf, remoteSynth = .ok buf → buf ≠ [] →
                (generateSpeech remoteSynth db currentModelId text voiceId).1 = .ok buf)
           ∧ (∀ buf, remoteSynth = .ok buf → buf = [] →
                (generateSpeech remoteSynth db currentModelId text voiceId).1.isOk = false)
           ∧ (∀ e, remoteSynth = .error e →
                (generateSpeech remoteSynth db currentModelId text voiceId).1.isOk = false))) := by
  refine ⟨?_, ?_, ?_⟩
  · intro hbad
    unfold generateSpeech
    rcases hbad with h | h | h
    · rw [if_pos (Or.inl h)]
      exact ⟨rfl, rfl⟩
    · rw [if_pos (Or.inr h)]
      exact ⟨rfl, rfl⟩
    · by_cases h0 : text = "" ∨ strTrim text = ""
      · rw [if_pos h0]
        exact ⟨rfl, rfl⟩
      · rw [if_neg h0, if_pos h]
        exact ⟨rfl, rfl⟩
  · intro targetId vm hres hfind hlocal
    unfold generateSpeech
    by_cases h0 : text = "" ∨ strTrim text = ""
    · rw [if_pos h0]
      exact ⟨rfl, rfl, fun _ h1 h2 _ => absurd h0 (by simp [h1, h2])⟩
    · rw [if_neg h0]
      by_cases h5 : 5000 < strLen text
      · rw [if_pos h5]
        exact ⟨rfl, rfl, fun _ _ _ h3 => absurd h5 (by omega)⟩
      · rw [if_neg h5, hres]
        dsimp only
        rw [hfind]
        dsimp only
        cases hact : vm.isActive with
        | false =>
            rw [if_pos rfl]
            exact ⟨rfl, rfl, fun ha _ _ _ => (by cases ha)⟩
        | true =>
            rw [if_neg (by simp), hlocal, if_neg (by simp)]
            exact ⟨rfl, rfl, fun _ _ _ _ => rfl⟩
  · intro targetId vm hres hfind hremote hact h1 h2 h3
    unfold generateSpeech
    rw [if_neg (by simp [h1, h2]), if_neg (by omega), hres]
    dsimp only
    rw [hfind]
    dsimp only
    rw [if_neg (by rw [hact]; simp), hremote, if_pos rfl]
    cases remoteSynth with
    | ok buf =>
        dsimp only
        by_cases hb : buf = []
        · rw [if_pos hb]
          refine ⟨rfl, ?_, ?_, ?_⟩
          · intro b hb2 hbne
            injection hb2 with h4
            exact absurd (h4 ▸ hb) hbne
          · intro b _ _
            rfl
          · intro e he
            cases he
        · rw [if_neg hb]
          refine ⟨rfl, ?_, ?_, ?_⟩
          · intro b hb2 _
            injection hb2 with h4
            rw [h4]
          · intro b hb2 hbe
            injection hb2 with h4
            exact absurd (h4 ▸ hbe) hb
          · intro e he
            cases he
    | error e =>
        refine ⟨rfl, ?_, ?_, ?_⟩
        · intro b hb
          cases hb
        · intro b hb
          cases hb
        · intro e2 he2
          rfl

/-! ## At-rest encryption (`encryption.ts`, `CapsuleEncryption`)

Byte buffers are `List Nat` with entries `< 256`.  The WebCrypto and text
primitives (`crypto.subtle` AES-GCM, PBKDF2, `TextEncoder`/`TextDecoder`,
`btoa`/`atob`) are external platform collaborators, bundled into a
`CryptoPlatform` record whose behavioural laws (`LawfulCrypto`) are the
standard contracts of those primitives: authenticated-cipher round trip,
base64 round trip on byte data, text-codec round trip.  The repository's
own layer — key storage in the `capsule_key` slot, salt/iv handling, the
branch structure of `encrypt`/`decrypt` — is embedded concretely.
`arrayBufferToBase64`/`base64ToArrayBuffer` shuttle bytes through a
binary string and `btoa`/`atob`; in the byte-list model that composite is
a single conversion each way. -/

def ValidBytes (bs : List Nat) : Prop := ∀ b ∈ bs, b < 256

instance (bs : List Nat) : Decidable (ValidBytes bs) :=
  inferInstanceAs (Decidable (∀ b ∈ bs, b < 256))

structure CryptoPlatform where
  aesEnc : List Nat → List Nat → List Nat → List Nat
  aesDec : List Nat → List Nat → List Nat → Option (List Nat)
  kdf : String → List Nat → List Nat
  utf8Enc : String → List Nat
  utf8Dec : List Nat → String
  toBase64 : List Nat → String
  fromBase64 : String → Option (List Nat)

/-- The contracts of the platform primitives: AES-GCM decryption inverts
encryption under the same key and iv; encryption of valid bytes under a
valid key yields valid bytes; base64 decoding inverts encoding of valid
bytes; the text codec round-trips every string into valid bytes.
(`TextDecoder` in its default non-fatal mode never throws, so `utf8Dec`
is total.) -/
structure LawfulCrypto (P : CryptoPlatform) : Prop where
  dec_enc : ∀ k iv m, P.aesDec k iv (P.aesEnc k iv m) = some m
  enc_valid : ∀ k iv m, ValidBytes k → ValidBytes m → ValidBytes (P.aesEnc k iv m)
  from_to_base64 : ∀ bs, ValidBytes bs → P.fromBase64 (P.toBase64 bs) = some bs
  utf8_roundtrip : ∀ s, P.utf8Dec (P.utf8Enc s) = s
  utf8_valid : ∀ s, ValidBytes (P.utf8Enc s)

/-- `arrayBufferToBase64` (bytes → binary string → `btoa`). -/
def arrayBufferToBase64 (P : CryptoPlatform) (bs : List Nat) : String := P.toBase64 bs

/-- `base64ToArrayBuffer` (`atob`, which throws on malformed input →
`none`, then bytes). -/
def base64ToArrayBuffer (P : CryptoPlatform) (s : String) : Option (List Nat) :=
  P.fromBase64 s

/-- The `{encryptedData, salt, iv}` triple `encrypt` returns (each field
a base64 string). -/
structure EncTriple where
  encryptedData : String
  salt : String
  iv : String
deriving DecidableEq, Repr

/-- The `capsule_key` slot of localStorage. -/
structure KeyStore where
  capsuleKey : Option String
deriving DecidableEq, Repr

/-- The random values an `encrypt` call draws: a 16-byte salt, a 12-byte
iv, and (when no password is supplied) the freshly generated AES key, as
the raw bytes `exportKey` yields. -/
structure Entropy where
  salt : List Nat
  iv : List Nat
  freshKey : List Nat
deriving DecidableEq, Repr

/-- `CapsuleEncryption.storeKey`: overwrite the single `capsule_key`
localStorage slot with the exported key. -/
def CapsuleEncryption.storeKey (_ks : KeyStore) (keyData : String) : KeyStore :=
  { capsuleKey := some keyData }

/-- `CapsuleEncryption.retrieveKey`: read and decode the stored key;
a missing slot or undecodable data is an error (`none`). -/
def CapsuleEncryption.retrieveKey (P : CryptoPlatform) (ks : KeyStore) : Option (List Nat) :=
  match ks.capsuleKey with
  | none => none
  | some keyData => base64ToArrayBuffer P keyData

/-- `CapsuleEncryption.encrypt`: derive the key from the password when
one is given, otherwise generate a fresh key and store it; encrypt the
UTF-8 bytes of the content under the fresh iv; return the base64 triple
and the (possibly updated) key store. -/
def CapsuleEncryption.encrypt (P : CryptoPlatform) (e : Entropy) (ks : KeyStore)
    (content : String) (password : Option String) : EncTriple × KeyStore :=
  match password with
  | some pw =>
      ({ encryptedData := arrayBufferToBase64 P (P.aesEnc (P.kdf pw e.salt) e.iv (P.utf8Enc content)),
         salt := arrayBufferToBase64 P e.salt, iv := arrayBufferToBase64 P e.iv }, ks)
  | none =>
      ({ encryptedData := arrayBufferToBase64 P (P.aesEnc e.freshKey e.iv (P.utf8Enc content)),
         salt := arrayBufferToBase64 P e.salt, iv := arrayBufferToBase64 P e.iv },
       CapsuleEncryption.storeKey ks (arrayBufferToBase64 P e.freshKey))

/-- `CapsuleEncryption.decrypt`: decode the three base64 inputs, obtain
the key (derived from the password, or retrieved from the store), decrypt
and decode; every failure throws (`none`). -/
def CapsuleEncryption.decrypt (P : CryptoPlatform) (ks : KeyStore)
    (encryptedData salt iv : String) (password : Option String) : Option String :=
  match base64ToArrayBuffer P encryptedData, base64ToArrayBuffer P salt,
        base64ToArrayBuffer P iv with
  | some encBuf, some saltBuf, some ivBuf =>
      match (match password with
             | some pw => some (P.kdf pw saltBuf)
             | none => CapsuleEncryption.retrieveKey P ks) with
      | none => none
      | some key =>
          match P.aesDec key ivBuf encBuf with
          | none => none
          | some data => some (P.utf8Dec data)
  | _, _, _ => none

/-- C2: decrypting the triple a passwordless `encrypt(x)` produced, with
no password and against the key store that `encrypt` call left behind,
returns exactly `x` — for every string `x` (non-empty per the claim),
newlines and Unicode included, given the platform contracts. -/
theorem decrypt_encrypt_roundtrip (P : CryptoPlatform) (L : LawfulCrypto P)
    (e : Entropy) (ks : KeyStore) (x : String) (hx : x ≠ "")
    (hsalt : ValidBytes e.salt) (hiv : ValidBytes e.iv) (hkey : ValidBytes e.freshKey) :
    CapsuleEncryption.decrypt P (CapsuleEncryption.encrypt P e ks x none).2
      (CapsuleEncryption.encrypt P e ks x none).1.encryptedData
      (CapsuleEncryption.encrypt P e ks x none).1.salt
      (CapsuleEncryption.encrypt P e ks x none).1.iv none = some x := by
  have hct : ValidBytes (P.aesEnc e.freshKey e.iv (P.utf8Enc x)) :=
    L.enc_valid _ _ _ hkey (L.utf8_valid x)
  unfold CapsuleEncryption.decrypt CapsuleEncryption.encrypt CapsuleEncryption.retrieveKey
    CapsuleEncryption.storeKey arrayBufferToBase64 base64ToArrayBuffer
  dsimp only
  rw [L.from_to_base64 _ hct, L.from_to_base64 _ hsalt, L.from_to_base64 _ hiv]
  dsimp only
  rw [L.from_to_base64 _ hkey]
  dsimp only
  rw [L.dec_enc]
  dsimp only
  rw [L.utf8_roundtrip]

/-! ### A concrete platform

A small platform satisfying the contracts, used to witness the crypto
theorems on concrete inputs: the text codec packs each character's code
point into three little-endian base-256 bytes; base64 is modelled by the
identity embedding of bytes into characters; the cipher prepends the key
to the message, which satisfies both the round-trip and (for equal-length
distinct keys) the authentication contract. -/

def n3le (n : Nat) : List Nat := [n % 256, n / 256 % 256, n / 65536]

def packChars (l : List Char) : List Nat := (l.map (fun c => n3le c.toNat)).flatten

def unpackChars : List Nat → List Char
  | b0 :: b1 :: b2 :: rest => Char.ofNat (b0 + 256 * b1 + 65536 * b2) :: unpackChars rest
  | _ => []

theorem charToNat_ofNat_valid (n : Nat) (h : n.isValidChar) : (Char.ofNat n).toNat = n := by
  simp [Char.ofNat, h, Char.toNat, Char.ofNatAux, UInt32.toNat, BitVec.toNat_ofNatLt]

theorem char_toNat_lt (c : Char) : c.toNat < 1114112 := by
  have h := c.valid
  rcases h with h | ⟨h1, h2⟩ <;> · simp only [Char.toNat]; omega

theorem unpackChars_packChars (l : List Char) : unpackChars (packChars l) = l := by
  induction l with
  | nil => rfl
  | cons c t ih =>
      have hlt : c.toNat < 16777216 := by
        have := char_toNat_lt c
        omega
      have harith : c.toNat % 256 + 256 * (c.toNat / 256 % 256) + 65536 * (c.toNat / 65536)
          = c.toNat := by omega
      show unpackChars (n3le c.toNat ++ packChars t) = c :: t
      rw [n3le]
      show Char.ofNat (c.toNat % 256 + 256 * (c.toNat / 256 % 256) + 65536 * (c.toNat / 65536))
          :: unpackChars (packChars t) = c :: t
      rw [harith, Char.ofNat_toNat, ih]

theorem packChars_valid (l : List Char) : ValidBytes (packChars l) := by
  intro b hb
  rw [packChars, List.mem_flatten] at hb
  obtain ⟨bs, hbs, hbbs⟩ := hb
  rw [List.mem_map] at hbs
  obtain ⟨c, _, hc⟩ := hbs
  have hlt : c.toNat < 16777216 := by
    have := char_toNat_lt c
    omega
  rw [← hc, n3le] at hbbs
  simp only [List.mem_cons, List.not_mem_nil, or_false] at hbbs
  rcases hbbs with h | h | h <;> omega

def bytesToText (bs : List Nat) : String := ⟨bs.map Char.ofNat⟩

def textToBytes (s : String) : Option (List Nat) := some (s.data.map Char.toNat)

theorem map_toNat_ofNat : ∀ bs : List Nat, ValidBytes bs →
    (bs.map Char.ofNat).map Char.toNat = bs
  | [], _ => rfl
  | b :: t, h => by
      have hb : b < 256 := h b (List.mem_cons_self b t)
      have hv : b.isValidChar := Or.inl (by omega)
      simp only [List.map_cons]
      rw [charToNat_ofNat_valid b hv,
          map_toNat_ofNat t (fun x hx => h x (List.mem_cons_of_mem _ hx))]

theorem textToBytes_bytesToText (bs : List Nat) (h : ValidBytes bs) :
    textToBytes (bytesToText bs) = some bs := by
  rw [textToBytes, bytesToText]
  congr 1
  exact map_toNat_ofNat bs h

def prefixEnc (k _iv m : List Nat) : List Nat := k ++ m

def prefixDec (k _iv c : List Nat) : Option (List Nat) :=
  if k.isPrefixOf c then some (c.drop k.length) else none

theorem prefixDec_prefixEnc (k iv m : List Nat) : prefixDec k iv (prefixEnc k iv m) = some m := by
  rw [prefixDec, prefixEnc, if_pos, List.drop_left]
  rw [List.isPrefixOf_iff_prefix]
  exact List.prefix_append k m

theorem prefixDec_wrong_key (k k' iv iv' m : List Nat)
    (hlen : k.length = k'.length) (hne : k ≠ k') :
    prefixDec k' iv' (prefixEnc k iv m) = none := by
  rw [prefixDec, prefixEnc, if_neg]
  intro hc
  rw [List.isPrefixOf_iff_prefix] at hc
  have h2 := List.prefix_iff_eq_take.mp hc
  rw [← hlen, List.take_left] at h2
  exact hne h2.symm

def concreteCrypto : CryptoPlatform :=
  { aesEnc := prefixEnc, aesDec := prefixDec, kdf := fun _ _ => [],
    utf8Enc := fun s => packChars s.data, utf8Dec := fun bs => ⟨unpackChars bs⟩,
    toBase64 := bytesToText, fromBase64 := textToBytes }

theorem concreteCrypto_lawful : LawfulCrypto concreteCrypto := by
  refine ⟨prefixDec_prefixEnc, ?_, textToBytes_bytesToText, ?_, ?_⟩
  · intro k iv m hk hm b hb
    rcases List.mem_append.mp hb with h | h
    · exact hk b h
    · exact hm b h
  · intro s
    show String.mk (unpackChars (packChars s.data)) = s
    rw [unpackChars_packChars]
  · intro s
    exact packChars_valid s.data

theorem decrypt_encrypt_roundtrip_witness :
    CapsuleEncryption.decrypt concreteCrypto
      (CapsuleEncryption.encrypt concreteCrypto ⟨[1], [2], [7, 9]⟩ ⟨none⟩ "Hi,\nthère — ok?" none).2
      (CapsuleEncryption.encrypt concreteCrypto ⟨[1], [2], [7, 9]⟩ ⟨none⟩ "Hi,\nthère — ok?" none).1.encryptedData
      (CapsuleEncryption.encrypt concreteCrypto ⟨[1], [2], [7, 9]⟩ ⟨none⟩ "Hi,\nthère — ok?" none).1.salt
      (CapsuleEncryption.encrypt concreteCrypto ⟨[1], [2], [7, 9]⟩ ⟨none⟩ "Hi,\nthère — ok?" none).1.iv
      none = some "Hi,\nthère — ok?" :=
  decrypt_encrypt_roundtrip concreteCrypto concreteCrypto_lawful ⟨[1], [2], [7, 9]⟩ ⟨none⟩
    "Hi,\nthère — ok?" (by decide) (by decide) (by decide) (by decide)

/-! ## Capsule storage (`database.ts`, `LivingHeirloomDB`)

The capsule fields the encryption pipeline touches, with
`encryptedContent` as the parsed triple (the JSON serialization between
the record and the triple is transparent in this model, so the
`NO DATA` / `CORRUPTED DATA` sentinels of `getCapsuleContent`, which
only a malformed serialized string can reach, have no inhabited branch
here).  The `creating` hook sanitizes, validates and — for an encrypted
capsule with content and no ciphertext yet — runs
`encryptCapsuleContent`, whose `catch` deliberately continues without
encryption. -/

structure TimeCapsule where
  title : String
  recipient : String
  content : String
  encryptedContent : Option EncTriple
  isEncrypted : Bool
deriving DecidableEq, Repr

/-- The entity table of `sanitizeText`. -/
def htmlEntity (c : Char) : List Char :=
  if c = '&' then "&amp;".data
  else if c = '<' then "&lt;".data
  else if c = '>' then "&gt;".data
  else if c = '"' then "&quot;".data
  else if c = '\'' then "&#x27;".data
  else if c = '/' then "&#x2F;".data
  else [c]

/-- `sanitizeText` (`sanitization.ts`): entity-encode, collapse
whitespace runs (which leaves no newline for the `\n\s*\n\s*\n` pass to
match), trim. -/
def sanitizeText (input : String) : String :=
  strTrim ⟨collapseWs ((input.data.map htmlEntity).flatten)⟩

/-- `sanitizeTimeCapsule` on the modelled fields: `sanitizeName` for
title and recipient, `sanitizeText` for content; the safe fields are
copied unchanged. -/
def sanitizeTimeCapsule (c : TimeCapsule) : TimeCapsule :=
  { c with
    title := sanitizeName c.title,
    recipient := sanitizeName c.recipient,
    content := sanitizeText c.content }

/-- The `TimeCapsuleSchema` length checks on the modelled fields. -/
def validateTimeCapsule (c : TimeCapsule) : Bool :=
  (1 ≤ strLen c.title && strLen c.title ≤ 200)
  && (1 ≤ strLen c.recipient && strLen c.recipient ≤ 100)
  && (1 ≤ strLen c.content && strLen c.content ≤ 50000)

/-- `encryptCapsuleContent`.  The `CapsuleEncryption.encrypt` call is the
parameter `enc` (`Except.error` standing for a WebCrypto failure): on
success the serialized triple is stored and the plaintext replaced by the
`[ENCRYPTED]` sentinel; on failure the `catch` logs and **continues
without encryption**, leaving the plaintext in place; whitespace-only
content is left unchanged as well. -/
def encryptCapsuleContent (enc : String → Except Unit EncTriple) (c : TimeCapsule) :
    TimeCapsule :=
  if strTrim c.content = "" then c
  else
    match enc c.content with
    | .ok t => { c with encryptedContent := some t, content := "[ENCRYPTED]" }
    | .error _ => c

/-- The `creating` hook of `LivingHeirloomDB.timeCapsules`: sanitize,
validate (a validation failure throws and aborts the add), then encrypt
when `isEncrypted` is set, content is non-empty and no ciphertext is
present yet. -/
def creatingHook (enc : String → Except Unit EncTriple) (c : TimeCapsule) :
    Except String TimeCapsule :=
  if validateTimeCapsule (sanitizeTimeCapsule c) = false then .error "Invalid capsule data"
  else if (sanitizeTimeCapsule c).isEncrypted = true
      ∧ (sanitizeTimeCapsule c).content ≠ ""
      ∧ (sanitizeTimeCapsule c).encryptedContent = none then
    .ok (encryptCapsuleContent enc (sanitizeTimeCapsule c))
  else .ok (sanitizeTimeCapsule c)

/-- `getCapsuleContent`: plaintext capsules (or capsules without stored
ciphertext) return their content; otherwise the stored triple is
structure-checked and decrypted, any failure yielding the
`UNABLE TO DECRYPT` sentinel. -/
def getCapsuleContent (P : CryptoPlatform) (ks : KeyStore) (c : TimeCapsule) : String :=
  match c.isEncrypted, c.encryptedContent with
  | false, _ => c.content
  | true, none => c.content
  | true, some t =>
      if t.encryptedData = "" ∨ t.salt = "" ∨ t.iv = "" then
        "[CONTENT ENCRYPTED - UNABLE TO DECRYPT]"
      else
        match CapsuleEncryption.decrypt P ks t.encryptedData t.salt t.iv none with
        | some s => s
        | none => "[CONTENT ENCRYPTED - UNABLE TO DECRYPT]"

/-- C10: every passwordless `encrypt` overwrites the single
`capsule_key` slot with the fresh key it just generated; consequently,
after `encrypt(x)` followed by `encrypt(y)` with distinct fresh keys,
passwordless decryption of `x`'s triple fails (the authenticated cipher
rejects the wrong key) and the read path returns the decryption
sentinel instead of `x`. -/
theorem second_encrypt_orphans_first_blob (P : CryptoPlatform) (L : LawfulCrypto P)
    (hauth : ∀ k k' iv iv' m, k.length = k'.length → k ≠ k' →
      P.aesDec k' iv' (P.aesEnc k iv m) = none)
    (e1 e2 : Entropy) (ks0 : KeyStore) (x y : String)
    (hsalt1 : ValidBytes e1.salt) (hiv1 : ValidBytes e1.iv)
    (hkey1 : ValidBytes e1.freshKey) (hkey2 : ValidBytes e2.freshKey)
    (hklen : e1.freshKey.length = e2.freshKey.length)
    (hkne : e1.freshKey ≠ e2.freshKey) :
    ((CapsuleEncryption.encrypt P e1 ks0 x none).2.capsuleKey
        = some (arrayBufferToBase64 P e1.freshKey))
    ∧ ((CapsuleEncryption.encrypt P e2 (CapsuleEncryption.encrypt P e1 ks0 x none).2 y none).2.capsuleKey
        = some (arrayBufferToBase64 P e2.freshKey))
    ∧ (CapsuleEncryption.decrypt P
        (CapsuleEncryption.encrypt P e2 (CapsuleEncryption.encrypt P e1 ks0 x none).2 y none).2
        (CapsuleEncryption.encrypt P e1 ks0 x none).1.encryptedData
        (CapsuleEncryption.encrypt P e1 ks0 x none).1.salt
        (CapsuleEncryption.encrypt P e1 ks0 x none).1.iv none = none)
    ∧ (getCapsuleContent P
        (CapsuleEncryption.encrypt P e2 (CapsuleEncryption.encrypt P e1 ks0 x none).2 y none).2
        { title := "T", recipient := "R", content := "[ENCRYPTED]",
          encryptedContent := some (CapsuleEncryption.encrypt P e1 ks0 x none).1,
          isEncrypted := true }
        = "[CONTENT ENCRYPTED - UNABLE TO DECRYPT]") := by
  have hct : ValidBytes (P.aesEnc e1.freshKey e1.iv (P.utf8Enc x)) :=
    L.enc_valid _ _ _ hkey1 (L.utf8_valid x)
  have hdec : CapsuleEncryption.decrypt P
      (CapsuleEncryption.encrypt P e2 (CapsuleEncryption.encrypt P e1 ks0 x none).2 y none).2
      (CapsuleEncryption.encrypt P e1 ks0 x none).1.encryptedData
      (CapsuleEncryption.encrypt P e1 ks0 x none).1.salt
      (CapsuleEncryption.encrypt P e1 ks0 x none).1.iv none = none := by
    unfold CapsuleEncryption.decrypt CapsuleEncryption.encrypt CapsuleEncryption.retrieveKey
      CapsuleEncryption.storeKey arrayBufferToBase64 base64ToArrayBuffer
    dsimp only
    rw [L.from_to_base64 _ hct, L.from_to_base64 _ hsalt1, L.from_to_base64 _ hiv1]
    dsimp only
    rw [L.from_to_base64 _ hkey2]
    dsimp only
    rw [hauth e1.freshKey e2.freshKey e1.iv _ _ hklen hkne]
  refine ⟨rfl, rfl, hdec, ?_⟩
  unfold getCapsuleContent
  dsimp only
  split
  · rfl
  · rw [hdec]

theorem second_encrypt_orphans_first_blob_witness :
    ((CapsuleEncryption.encrypt concreteCrypto ⟨[1], [2], [10, 11]⟩ ⟨none⟩ "aa" none).2.capsuleKey
        = some (arrayBufferToBase64 concreteCrypto [10, 11]))
    ∧ ((CapsuleEncryption.encrypt concreteCrypto ⟨[3], [4], [10, 12]⟩
          (CapsuleEncryption.encrypt concreteCrypto ⟨[1], [2], [10, 11]⟩ ⟨none⟩ "aa" none).2
          "bb" none).2.capsuleKey
        = some (arrayBufferToBase64 concreteCrypto [10, 12]))
    ∧ (CapsuleEncryption.decrypt concreteCrypto
        (CapsuleEncryption.encrypt concreteCrypto ⟨[3], [4], [10, 12]⟩
          (CapsuleEncryption.encrypt concreteCrypto ⟨[1], [2], [10, 11]⟩ ⟨none⟩ "aa" none).2
          "bb" none).2
        (CapsuleEncryption.encrypt concreteCrypto ⟨[1], [2], [10, 11]⟩ ⟨none⟩ "aa" none).1.encryptedData
        (CapsuleEncryption.encrypt concreteCrypto ⟨[1], [2], [10, 11]⟩ ⟨none⟩ "aa" none).1.salt
        (CapsuleEncryption.encrypt concreteCrypto ⟨[1], [2], [10, 11]⟩ ⟨none⟩ "aa" none).1.iv
        none = none)
    ∧ (getCapsuleContent concreteCrypto
        (CapsuleEncryption.encrypt concreteCrypto ⟨[3], [4], [10, 12]⟩
          (CapsuleEncryption.encrypt concreteCrypto ⟨[1], [2], [10, 11]⟩ ⟨none⟩ "aa" none).2
          "bb" none).2
        { title := "T", recipient := "R", content := "[ENCRYPTED]",
          encryptedContent := some (CapsuleEncryption.encrypt concreteCrypto
            ⟨[1], [2], [10, 11]⟩ ⟨none⟩ "aa" none).1,
          isEncrypted := true }
        = "[CONTENT ENCRYPTED - UNABLE TO DECRYPT]") :=
  second_encrypt_orphans_first_blob concreteCrypto concreteCrypto_lawful
    (fun k k' iv iv' m hl hn => prefixDec_wrong_key k k' iv iv' m hl hn)
    ⟨[1], [2], [10, 11]⟩ ⟨[3], [4], [10, 12]⟩ ⟨none⟩ "aa" "bb"
    (by decide) (by decide) (by decide) (by decide) (by decide) (by decide)

/-- The plaintext capsule of the C1 counterexample. -/
def plainCapsule : TimeCapsule :=
  { title := "T", recipient := "R", content := "my secret",
    encryptedContent := none, isEncrypted := true }

/-- C1 (counterexample): when the underlying encrypt call fails, the
`catch` in `encryptCapsuleContent` continues *without* encryption — the
stored record keeps its plaintext (`"my secret"`), no sentinel, no
ciphertext — so "the persisted record never contains the plaintext,
including when the underlying encrypt call fails" is false. -/
theorem encrypt_failure_keeps_plaintext_counterexample :
    creatingHook (fun _ => .error ()) plainCapsule = .ok plainCapsule
    ∧ plainCapsule.isEncrypted = true
    ∧ plainCapsule.content = "my secret"
    ∧ plainCapsule.content ≠ "[ENCRYPTED]" := by
  refine ⟨rfl, rfl, rfl, by decide⟩

/-- C1 (amended): a record the `creating` hook stores never holds
plaintext *and* ciphertext together: either no ciphertext was produced
and the (sanitized) plaintext is kept — the not-encrypted case, the
whitespace-only case, and the case where the encrypt call **fails** —
or the ciphertext is stored and the content field is exactly the
`[ENCRYPTED]` sentinel. -/
theorem creatingHook_plaintext_ciphertext_dichotomy
    (enc : String → Except Unit EncTriple) (c c' : TimeCapsule)
    (hpre : c.encryptedContent = none)
    (hok : creatingHook enc c = .ok c') :
    (c'.encryptedContent = none ∧ c'.content = sanitizeText c.content)
    ∨ (∃ t, c'.encryptedContent = some t ∧ c'.content = "[ENCRYPTED]") := by
  have hsanEnc : (sanitizeTimeCapsule c).encryptedContent = none := hpre
  unfold creatingHook at hok
  split at hok
  · cases hok
  · split at hok
    · injection hok with h
      subst h
      unfold encryptCapsuleContent
      split
      · exact Or.inl ⟨hsanEnc, rfl⟩
      · cases henc : enc (sanitizeTimeCapsule c).content with
        | ok t => exact Or.inr ⟨t, rfl, rfl⟩
        | error e => exact Or.inl ⟨hsanEnc, rfl⟩
    · injection hok with h
      subst h
      exact Or.inl ⟨hsanEnc, rfl⟩

theorem creatingHook_plaintext_ciphertext_dichotomy_witness :
    (({ title := "T", recipient := "R", content := "[ENCRYPTED]",
        encryptedContent := some ⟨"c", "s", "i"⟩, isEncrypted := true } : TimeCapsule).encryptedContent = none
      ∧ ({ title := "T", recipient := "R", content := "[ENCRYPTED]",
           encryptedContent := some ⟨"c", "s", "i"⟩, isEncrypted := true } : TimeCapsule).content
          = sanitizeText plainCapsule.content)
    ∨ (∃ t, ({ title := "T", recipient := "R", content := "[ENCRYPTED]",
               encryptedContent := some ⟨"c", "s", "i"⟩, isEncrypted := true } : TimeCapsule).encryptedContent = some t
        ∧ ({ title := "T", recipient := "R", content := "[ENCRYPTED]",
             encryptedContent := some ⟨"c", "s", "i"⟩, isEncrypted := true } : TimeCapsule).content
            = "[ENCRYPTED]") :=
  creatingHook_plaintext_ciphertext_dichotomy (fun _ => .ok ⟨"c", "s", "i"⟩) plainCapsule
    { title := "T", recipient := "R", content := "[ENCRYPTED]",
      encryptedContent := some ⟨"c", "s", "i"⟩, isEncrypted := true } rfl rfl

end Heirloom
